import Mathlib

/-!
Shallow embedding of `src/lib/interceptor.js` from the spawk repository: the
expectation-matching engine (`compareOptions`, `Interceptor.match`) and the
synthetic process lifecycle (`Interceptor.run` plus the `process.nextTick`
resolution step).  JavaScript objects used as option bags are modelled as
association lists of JSON-like values; the `env` key, which the source treats
specially, is modelled as its own field.  Match predicates are modelled as
Boolean-valued functions (the JS `this` binding passed via `.call(this.api, …)`
to user predicates is not observable in the claims and is not modelled for the
match predicates; for mock-value functions, where the claims do depend on the
`this` binding, the facade is passed explicitly).  The asynchronous
`process.nextTick` boundary is modelled by splitting execution into a
synchronous phase (`run`) and a resolution phase (`resolve`), each producing
its own event list.
-/

namespace Spawk

/-- JSON-serialisable JavaScript values as they occur in spawn options
(strings, numbers, booleans, null, arrays such as `stdio`).  String escaping
inside `JSON.stringify` is not modelled; the strings the claims use contain no
characters needing escapes. -/
inductive JSValue where
  | str : String → JSValue
  | num : Int → JSValue
  | bool : Bool → JSValue
  | null : JSValue
  | arr : List JSValue → JSValue
deriving Repr

mutual

/-- Model of `JSON.stringify` on a defined `JSValue`. -/
def stringify : JSValue → String
  | .str s => "\"" ++ s ++ "\""
  | .num n => toString n
  | .bool b => cond b "true" "false"
  | .null => "null"
  | .arr l => "[" ++ stringifyList l ++ "]"

/-- `JSON.stringify` of the comma-separated element list of an array. -/
def stringifyList : List JSValue → String
  | [] => ""
  | [v] => stringify v
  | v :: rest => stringify v ++ "," ++ stringifyList rest

end

/-- `JSON.stringify` applied to a possibly-`undefined` property access:
`JSON.stringify(undefined)` is `undefined`, modelled as `none`. -/
def stringifyOpt : Option JSValue → Option String
  | none => none
  | some v => some (stringify v)

/-- A spawn options object.  `fields` holds every own property other than
`env` (JS property lookup on a missing key gives `undefined`, i.e. `none`);
`env`, which the source compares key-wise rather than via `JSON.stringify`,
is modelled separately as an optional map from names to strings. -/
structure CallOptions where
  fields : List (String × JSValue) := []
  env : Option (List (String × String)) := none

/-- The fixed list of recognised option keys from `compareOptions`. -/
def serializable : List String :=
  ["cwd", "argv0", "detached", "uid", "gid", "serialization",
   "shell", "windowsVerbatimArguments", "windowsHide", "stdio"]

/-- `compareOptions(defined, called)` from the source: each recognised key
present in `defined` must `JSON.stringify` equal to the corresponding value in
`called`; if `defined` has an `env` key, `called` must also have one and every
key of `defined.env` must be strictly equal in `called.env`. -/
def compareOptions (defined called : CallOptions) : Bool :=
  (serializable.all fun attr =>
    match defined.fields.lookup attr with
    | none => true
    | some v => stringifyOpt (some v) == stringifyOpt (called.fields.lookup attr))
  &&
  (match defined.env with
   | none => true
   | some denv =>
     match called.env with
     | none => false
     | some cenv => denv.all fun p => cenv.lookup p.1 == some p.2)

/-- JS `Array.prototype.toString` on an array of strings: `join(',')`. -/
def argsToString (l : List String) : String :=
  String.intercalate "," l

/-- The canonical call triple recorded by `run` as `calledWith`. -/
structure CalledWith where
  command : String
  args : List String
  options : CallOptions

/-- The stored command spec: literal string, regular expression (modelled by
its `test` function on strings), or predicate over the call triple. -/
inductive CommandSpec where
  | lit : String → CommandSpec
  | regex : (String → Bool) → CommandSpec
  | pred : (String → List String → CallOptions → Bool) → CommandSpec

/-- The stored args spec: literal ordered sequence or predicate. -/
inductive ArgsSpec where
  | list : List String → ArgsSpec
  | pred : (List String → Bool) → ArgsSpec

/-- The stored options spec: partial options mapping or predicate. -/
inductive OptionsSpec where
  | map : CallOptions → OptionsSpec
  | pred : (CallOptions → Bool) → OptionsSpec

/-- The read-only view the `API` facade exposes (its getters `command`,
`args`, `options`, `called`, `calledWith`); mock-value functions are invoked
with this facade as their `this`. -/
structure Facade where
  command : CommandSpec
  args : Option ArgsSpec
  options : Option OptionsSpec
  called : Bool
  calledWith : Option CalledWith

/-- A mock field value: either a literal or a function invoked with the facade
as its evaluation context. -/
inductive MockVal (α : Type) where
  | lit : α → MockVal α
  | fn : (Facade → α) → MockVal α

/-- The getter logic shared by `Interceptor.exitCode` / `signal` / `stdout` /
`stderr`: a function is called with `this.api`, anything else is returned. -/
def MockVal.eval : MockVal α → Facade → α
  | .lit v, _ => v
  | .fn f, _api => f _api

/-- The `mocks` record initialised by the `Interceptor` constructor:
`exitCode: 0`, `signal: null`; `stdout` and `stderr` start undefined. -/
structure Mocks where
  exitCode : MockVal Int := .lit 0
  signal : MockVal (Option String) := .lit none
  stdout : MockVal (Option String) := .lit none
  stderr : MockVal (Option String) := .lit none

/-- One registered interceptor (class `Interceptor`). -/
structure Interceptor where
  command : CommandSpec
  args : Option ArgsSpec := none
  options : Option OptionsSpec := none
  called : Bool := false
  calledWith : Option CalledWith := none
  mocks : Mocks := {}

/-- The `Interceptor` constructor: stores the three specs and the defaults
`called = false`, `mocks = \x7bexitCode: 0, signal: null\x7d`. -/
def Interceptor.create (command : CommandSpec) (args : Option ArgsSpec)
    (options : Option OptionsSpec) : Interceptor :=
  { command := command, args := args, options := options }

/-- The facade view of an interceptor.  `API.calledWith` only returns the
recorded triple when `called` is true. -/
def Interceptor.api (I : Interceptor) : Facade :=
  { command := I.command, args := I.args, options := I.options,
    called := I.called,
    calledWith := if I.called then I.calledWith else none }

/-- Getter `Interceptor.exitCode`. -/
def Interceptor.exitCode (I : Interceptor) : Int :=
  I.mocks.exitCode.eval I.api

/-- Getter `Interceptor.signal`. -/
def Interceptor.signal (I : Interceptor) : Option String :=
  I.mocks.signal.eval I.api

/-- Getter `Interceptor.stdout`. -/
def Interceptor.stdout (I : Interceptor) : Option String :=
  I.mocks.stdout.eval I.api

/-- Getter `Interceptor.stderr`. -/
def Interceptor.stderr (I : Interceptor) : Option String :=
  I.mocks.stderr.eval I.api

namespace API

/-- `API.exit(code)`: stores the mock exit code without evaluating it. -/
def exit (I : Interceptor) (code : MockVal Int) : Interceptor :=
  { I with mocks := { I.mocks with exitCode := code } }

/-- `API.signal(signal)`: stores the mock signal without evaluating it. -/
def signal (I : Interceptor) (sig : MockVal (Option String)) : Interceptor :=
  { I with mocks := { I.mocks with signal := sig } }

/-- `API.stdout(stdout)`: stores the mock stdout without evaluating it. -/
def stdout (I : Interceptor) (out : MockVal (Option String)) : Interceptor :=
  { I with mocks := { I.mocks with stdout := out } }

/-- `API.stderr(stderr)`: stores the mock stderr without evaluating it. -/
def stderr (I : Interceptor) (err : MockVal (Option String)) : Interceptor :=
  { I with mocks := { I.mocks with stderr := err } }

end API

/-- The command block of `Interceptor.match`: predicate → call it with
`(command, args, options)`; regex → `test` the command; otherwise strict
equality with the literal. -/
def Interceptor.commandMatches (I : Interceptor) (command : String)
    (args : List String) (options : CallOptions) : Bool :=
  match I.command with
  | .pred f => f command args options
  | .regex t => t command
  | .lit s => command == s

/-- The args block of `Interceptor.match`: predicate → call it with `(args)`;
a stored sequence (always truthy in JS) → `toString` equality; no spec →
accepted. -/
def Interceptor.argsMatches (I : Interceptor) (args : List String) : Bool :=
  match I.args with
  | some (.pred f) => f args
  | some (.list l) => argsToString l == argsToString args
  | none => true

/-- The options block of `Interceptor.match`: predicate → call it with
`(options)`; a stored mapping (always truthy in JS) → `compareOptions`; no
spec → accepted. -/
def Interceptor.optionsMatches (I : Interceptor) (options : CallOptions) : Bool :=
  match I.options with
  | some (.pred f) => f options
  | some (.map m) => compareOptions m options
  | none => true

/-- `Interceptor.match(command, args, options)`.  The state is threaded
through explicitly to record that the method performs no assignment: every
early return and the final success leave the interceptor untouched.  (`match`
is a Lean keyword, hence the name `matchCall`.) -/
def Interceptor.matchCall (I : Interceptor) (command : String)
    (args : List String) (options : CallOptions) : Bool × Interceptor :=
  if I.called then (false, I)
  else if !(I.commandMatches command args options) then (false, I)
  else if !(I.argsMatches args) then (false, I)
  else if !(I.optionsMatches options) then (false, I)
  else (true, I)

/-- The synthetic process handle (`cp.ChildProcess` with three fresh
`PassThrough` streams).  Stream contents are modelled as the list of written
chunks plus a closed flag. -/
structure Child where
  spawnargs : List String
  exitCode : Option Int := none
  signalCode : Option String := none
  connected : Bool := false
  stdoutData : List String := []
  stdoutClosed : Bool := false
  stderrData : List String := []
  stderrClosed : Bool := false

/-- Lifecycle events emitted on the handle. -/
inductive Event where
  | spawn : Event
  | exit : Int → Option String → Event
  | close : Int → Option String → Event
deriving Repr, DecidableEq

/-- What the synchronous part of `run` produces: the mutated interceptor, the
handle returned to the caller, and the events emitted during the call itself
(before `process.nextTick` fires). -/
structure RunResult where
  interceptor : Interceptor
  child : Child
  syncEvents : List Event

/-- The synchronous part of `Interceptor.run`: sets `called` and
`calledWith`, allocates the handle, sets `spawnargs`, emits `spawn`, and
returns the handle.  The `process.nextTick` body is `Interceptor.resolve`,
which runs in a later scheduling turn on the state this function returns. -/
def Interceptor.run (I : Interceptor) (command : String) (args : List String)
    (options : CallOptions) : RunResult :=
  let I' := { I with called := true,
                     calledWith := some ⟨command, args, options⟩ }
  let child : Child := { spawnargs := args }
  { interceptor := I', child := child, syncEvents := [.spawn] }

/-- JS truthiness of a resolved stream value: `undefined` and the empty
string are falsy, so `if (stdout)` skips the write for them. -/
def truthyStr : Option String → Bool
  | none => false
  | some s => !(s == "")

/-- The `process.nextTick` resolution step of `run`: evaluates the four mock
getters (against the post-`run` interceptor, whose facade already reports
`called` and `calledWith`), sets `exitCode` / `signalCode` / `connected` on
the handle, writes-and-closes both output streams, and emits
`exit(exitCode, signal)` then `close(exitCode, signal)` in that order. -/
def Interceptor.resolve (I : Interceptor) (child : Child) :
    Child × List Event :=
  let exitCode := I.exitCode
  let sig := I.signal
  let out := I.stdout
  let err := I.stderr
  let child1 := { child with exitCode := some exitCode, signalCode := sig,
                             connected := false }
  let child2 :=
    if truthyStr out then
      { child1 with stdoutData := child1.stdoutData ++ [out.getD ""] }
    else child1
  let child3 := { child2 with stdoutClosed := true }
  let child4 :=
    if truthyStr err then
      { child3 with stderrData := child3.stderrData ++ [err.getD ""] }
    else child3
  let child5 := { child4 with stderrClosed := true }
  (child5, [Event.exit exitCode sig, Event.close exitCode sig])

/-!  Helper lemmas shared by the claim theorems. -/

/-- The Boolean returned by `matchCall` is the conjunction of the exhaustion
check with the three criterion blocks. -/
theorem matchCall_fst (I : Interceptor) (c : String) (a : List String)
    (o : CallOptions) :
    (I.matchCall c a o).1 =
      (!I.called && I.commandMatches c a o && I.argsMatches a &&
        I.optionsMatches o) := by
  cases h1 : I.called <;>
    cases h2 : I.commandMatches c a o <;>
      cases h3 : I.argsMatches a <;>
        cases h4 : I.optionsMatches o <;>
          simp [Interceptor.matchCall, h1, h2, h3, h4]

/-- The facade of the interceptor state that `run` leaves behind: `called` is
true and `calledWith` is the run triple. -/
theorem run_api (I : Interceptor) (c : String) (a : List String)
    (o : CallOptions) :
    ((I.run c a o).interceptor).api =
      { command := I.command, args := I.args, options := I.options,
        called := true, calledWith := some ⟨c, a, o⟩ } := by
  simp [Interceptor.run, Interceptor.api]

/-- The handle state `resolve` produces, in closed form. -/
theorem resolve_child (I : Interceptor) (ch : Child) :
    (I.resolve ch).1 =
      { ch with exitCode := some I.exitCode, signalCode := I.signal,
                connected := false,
                stdoutData := ch.stdoutData ++
                  (if truthyStr I.stdout then [I.stdout.getD ""] else []),
                stdoutClosed := true,
                stderrData := ch.stderrData ++
                  (if truthyStr I.stderr then [I.stderr.getD ""] else []),
                stderrClosed := true } := by
  unfold Interceptor.resolve
  split <;> split <;> simp_all

/-- The events `resolve` emits, in closed form. -/
theorem resolve_events (I : Interceptor) (ch : Child) :
    (I.resolve ch).2 =
      [Event.exit I.exitCode I.signal, Event.close I.exitCode I.signal] := rfl

/-!  Claim theorems. -/

/-- Claim C1: an interceptor whose `called` flag is true never matches,
regardless of the call triple; and after `run` has been invoked once, every
subsequent `match` on the resulting interceptor — the identical triple
included — returns false. -/
theorem called_interceptor_never_matches :
    (∀ (I : Interceptor) (c : String) (a : List String) (o : CallOptions),
      I.called = true → (I.matchCall c a o).1 = false) ∧
    (∀ (I : Interceptor) (c : String) (a : List String) (o : CallOptions)
       (c' : String) (a' : List String) (o' : CallOptions),
      (((I.run c a o).interceptor).matchCall c' a' o').1 = false) := by
  constructor
  · intro I c a o h
    simp [Interceptor.matchCall, h]
  · intro I c a o c' a' o'
    simp [Interceptor.run, Interceptor.matchCall]

/-- Witness for C1 at a concrete called interceptor and triple. -/
theorem called_interceptor_never_matches_witness :
    (({ command := .lit "ls", called := true } : Interceptor).called = true) ∧
    ((({ command := .lit "ls", called := true } : Interceptor).matchCall
        "ls" [] {}).1 = false) :=
  ⟨rfl, called_interceptor_never_matches.1
    { command := .lit "ls", called := true } "ls" [] {} rfl⟩

/-- Claim C8: `match` mutates nothing — it hands back the interceptor exactly
as it found it, `called` flag and `calledWith` included, whether it succeeds
or fails — while `run` is what flips `called` to true. -/
theorem match_is_pure (I : Interceptor) (c : String) (a : List String)
    (o : CallOptions) :
    (I.matchCall c a o).2 = I ∧
    (I.run c a o).interceptor.called = true := by
  refine ⟨?_, rfl⟩
  cases h1 : I.called <;>
    cases h2 : I.commandMatches c a o <;>
      cases h3 : I.argsMatches a <;>
        cases h4 : I.optionsMatches o <;>
          simp [Interceptor.matchCall, h1, h2, h3, h4]

/-- Claim C9: the facade exposes `calledWith` as undefined whenever `called`
is false, and the synchronous part of `run(command, args, options)` already
records exactly that triple, before any resolution work. -/
theorem calledWith_exposure :
    (∀ I : Interceptor, I.called = false → I.api.calledWith = none) ∧
    (∀ (I : Interceptor) (c : String) (a : List String) (o : CallOptions),
      ((I.run c a o).interceptor).api.calledWith = some ⟨c, a, o⟩) := by
  constructor
  · intro I h
    simp [Interceptor.api, h]
  · intro I c a o
    simp [Interceptor.run, Interceptor.api]

/-- Witness for C9 at a concrete interceptor and triple. -/
theorem calledWith_exposure_witness :
    ((Interceptor.create (.lit "git") none none).called = false ∧
     (Interceptor.create (.lit "git") none none).api.calledWith = none) ∧
    (((Interceptor.create (.lit "git") none none).run "git" ["st"]
        {}).interceptor.api.calledWith = some ⟨"git", ["st"], {}⟩) :=
  ⟨⟨rfl, calledWith_exposure.1 _ rfl⟩,
   calledWith_exposure.2 (Interceptor.create (.lit "git") none none)
     "git" ["st"] {}⟩

/-- Claim C4: on a not-yet-called interceptor, the command criterion holds
iff — literal spec: the incoming command equals it; regex spec: the test
succeeds on the incoming command; predicate spec: the predicate applied to
the triple is truthy.  Moreover the full `match` result is the conjunction of
this criterion with the args and options criteria. -/
theorem command_criterion (I : Interceptor) (c : String) (a : List String)
    (o : CallOptions) (hc : I.called = false) :
    (∀ s, I.command = .lit s → (I.commandMatches c a o = true ↔ c = s)) ∧
    (∀ t, I.command = .regex t → (I.commandMatches c a o = true ↔ t c = true)) ∧
    (∀ f, I.command = .pred f →
      (I.commandMatches c a o = true ↔ f c a o = true)) ∧
    (I.matchCall c a o).1 =
      (I.commandMatches c a o && I.argsMatches a && I.optionsMatches o) := by
  refine ⟨?_, ?_, ?_, ?_⟩
  · intro s hs
    simp [Interceptor.commandMatches, hs]
  · intro t ht
    simp [Interceptor.commandMatches, ht]
  · intro f hf
    simp [Interceptor.commandMatches, hf]
  · rw [matchCall_fst, hc]
    simp

/-- Witness for C4 at a concrete literal-command interceptor. -/
theorem command_criterion_witness :
    ((Interceptor.create (.lit "ls") none none).called = false) ∧
    ((Interceptor.create (.lit "ls") none none).commandMatches "ls" [] {} = true
      ↔ ("ls" : String) = "ls") :=
  ⟨rfl, (command_criterion (Interceptor.create (.lit "ls") none none)
    "ls" [] {} rfl).1 "ls" rfl⟩

/-- Claim C2: `run` emits exactly `spawn` during its synchronous phase; the
resolution step — scheduled by `process.nextTick`, i.e. running in a later
scheduling turn, never the turn that emitted `spawn` (the two phases are the
separate `syncEvents` and `resolve` event lists of this embedding) — emits
exactly `exit` immediately followed by `close`, both carrying the identical
resolved `(code, signal)` pair. -/
theorem lifecycle_event_protocol (I : Interceptor) (c : String)
    (a : List String) (o : CallOptions) :
    (I.run c a o).syncEvents = [Event.spawn] ∧
    ((I.run c a o).interceptor.resolve (I.run c a o).child).2 =
      [Event.exit ((I.run c a o).interceptor.exitCode)
         ((I.run c a o).interceptor.signal),
       Event.close ((I.run c a o).interceptor.exitCode)
         ((I.run c a o).interceptor.signal)] :=
  ⟨rfl, rfl⟩

/-- Claim C10: with no mock configuration, resolution uses the constructor
defaults `exitCode = 0` and `signal = null`: the handle ends with exit code 0
and no signal, nothing is written to either output stream yet both streams
are still closed, and the events are `exit(0, null)` then `close(0, null)`. -/
theorem default_resolution (cmd : CommandSpec) (args : Option ArgsSpec)
    (opts : Option OptionsSpec) (c : String) (a : List String)
    (o : CallOptions) :
    let r := (Interceptor.create cmd args opts).run c a o
    let res := r.interceptor.resolve r.child
    res.1.exitCode = some 0 ∧ res.1.signalCode = none ∧
    res.1.connected = false ∧
    res.1.stdoutData = [] ∧ res.1.stdoutClosed = true ∧
    res.1.stderrData = [] ∧ res.1.stderrClosed = true ∧
    res.2 = [Event.exit 0 none, Event.close 0 none] := by
  exact ⟨rfl, rfl, rfl, rfl, rfl, rfl, rfl, rfl⟩

/-- Claim C7: a mock field configured as a function is stored unevaluated at
registration time (the fluent setter records the function itself) and is
invoked lazily at resolution time with the facade as its evaluation context —
a facade on which `called` is true and `calledWith` is the run triple — and
the resulting values are the ones set on the handle and passed to the
events.  Concretely, registering an exit-code function constantly 1 and a
stdout function returning the comma-join of its context's recorded args,
then running with command "echo" and args ["x", "y"], yields exit code 1,
stdout content "x,y", and events exit/close with code 1 and no signal. -/
theorem deferred_mock_evaluation :
    (∀ (I : Interceptor) (f : Facade → Int),
      (API.exit I (.fn f)).mocks.exitCode = MockVal.fn f) ∧
    (∀ (I : Interceptor) (c : String) (a : List String) (o : CallOptions)
       (f : Facade → Int),
      I.mocks.exitCode = .fn f →
      ((I.run c a o).interceptor.resolve (I.run c a o).child).1.exitCode =
        some (f { command := I.command, args := I.args, options := I.options,
                  called := true, calledWith := some ⟨c, a, o⟩ })) ∧
    (∀ (I : Interceptor) (c : String) (a : List String) (o : CallOptions)
       (g : Facade → Option String),
      I.mocks.stdout = .fn g →
      ((I.run c a o).interceptor).stdout =
        g { command := I.command, args := I.args, options := I.options,
            called := true, calledWith := some ⟨c, a, o⟩ }) ∧
    (let I := API.stdout
        (API.exit (Interceptor.create (.lit "echo") none none)
          (.fn fun _ => 1))
        (.fn fun api => some (argsToString
          (match api.calledWith with
           | some cw => cw.args
           | none => [])))
     let r := I.run "echo" ["x", "y"] {}
     let res := r.interceptor.resolve r.child
     res.1.exitCode = some 1 ∧ res.1.stdoutData = ["x,y"] ∧
     res.2 = [Event.exit 1 none, Event.close 1 none]) := by
  refine ⟨fun I f => rfl, ?_, ?_, ?_⟩
  · intro I c a o f hf
    rw [resolve_child]
    simp only [Interceptor.exitCode, run_api]
    simp [Interceptor.run, hf, MockVal.eval]
  · intro I c a o g hg
    simp only [Interceptor.stdout, run_api]
    simp [Interceptor.run, hg, MockVal.eval]
  · exact ⟨rfl, rfl, rfl⟩

/-- Witness for C7 at a concrete functional exit-code mock. -/
theorem deferred_mock_evaluation_witness :
    ((API.exit (Interceptor.create (.lit "echo") none none)
        (.fn fun _ => 1)).mocks.exitCode = MockVal.fn fun _ => 1) ∧
    (((API.exit (Interceptor.create (.lit "echo") none none)
          (.fn fun _ => 1)).run "echo" ["x", "y"] {}).interceptor.resolve
        ((API.exit (Interceptor.create (.lit "echo") none none)
          (.fn fun _ => 1)).run "echo" ["x", "y"] {}).child).1.exitCode =
      some 1 :=
  ⟨rfl, deferred_mock_evaluation.2.1
    (API.exit (Interceptor.create (.lit "echo") none none) (.fn fun _ => 1))
    "echo" ["x", "y"] {} (fun _ => 1) rfl⟩

/-- Counterexample to claim C3 as stated: the spec mapping holds the key
"timeout", the incoming options hold no key at all, yet `match` succeeds —
`compareOptions` only inspects the fixed list of recognised keys, so spec
keys outside that list are ignored rather than required. -/
theorem options_unrecognised_key_counterexample :
    ((Interceptor.create (.lit "x") none
        (some (.map { fields := [("timeout", .num 100)] }))).matchCall
      "x" [] {}).1 = true ∧
    (({ fields := [("timeout", JSValue.num 100)] : CallOptions }).fields.lookup
        "timeout").isSome = true ∧
    (({} : CallOptions).fields.lookup "timeout").isSome = false ∧
    ("timeout" ∈ serializable) = False := by
  refine ⟨rfl, rfl, rfl, by simp [serializable]⟩

/-- Claim C3 (amended): for a partial-mapping options spec, `match` fails
unless every recognised key ("cwd", "argv0", "detached", "uid", "gid",
"serialization", "shell", "windowsVerbatimArguments", "windowsHide",
"stdio") present in the spec mapping is present in the incoming options with
a JSON-serialisation-equal (deep-equal) value; spec keys outside the
recognised list are ignored, as are incoming keys absent from the spec
("env" is matched key-wise and treated separately).  The spec mapping with
cwd "/tmp" matches incoming options with cwd "/tmp" and shell true, but not
incoming options with cwd "/other". -/
theorem options_subset_matching :
    (∀ (m o : CallOptions), compareOptions m o = true →
      ∀ attr ∈ serializable, ∀ v, m.fields.lookup attr = some v →
        ∃ w, o.fields.lookup attr = some w ∧ stringify w = stringify v) ∧
    ((Interceptor.create (.lit "x") none
        (some (.map { fields := [("cwd", .str "/tmp")] }))).matchCall
      "x" [] { fields := [("cwd", .str "/tmp"), ("shell", .bool true)] }).1
      = true ∧
    ((Interceptor.create (.lit "x") none
        (some (.map { fields := [("cwd", .str "/tmp")] }))).matchCall
      "x" [] { fields := [("cwd", .str "/other")] }).1 = false := by
  refine ⟨?_, rfl, rfl⟩
  intro m o h attr hattr v hv
  rw [compareOptions, Bool.and_eq_true, List.all_eq_true] at h
  have h1 := h.1 attr hattr
  rw [hv] at h1
  cases hw : o.fields.lookup attr with
  | none => rw [hw] at h1; simp [stringifyOpt] at h1
  | some w =>
    rw [hw] at h1
    simp only [stringifyOpt, beq_iff_eq, Option.some.injEq] at h1
    exact ⟨w, rfl, h1.symm⟩

/-- Witness for C3 (amended) at a concrete spec and incoming options pair. -/
theorem options_subset_matching_witness :
    (compareOptions { fields := [("cwd", JSValue.str "/tmp")] }
      { fields := [("cwd", JSValue.str "/tmp"), ("shell", JSValue.bool true)] }
      = true) ∧
    (∃ w, ({ fields := [("cwd", JSValue.str "/tmp"),
              ("shell", JSValue.bool true)] : CallOptions }).fields.lookup
        "cwd" = some w ∧ stringify w = stringify (.str "/tmp")) :=
  ⟨rfl, options_subset_matching.1
    { fields := [("cwd", JSValue.str "/tmp")] }
    { fields := [("cwd", JSValue.str "/tmp"), ("shell", JSValue.bool true)] }
    rfl "cwd" (by simp [serializable]) (.str "/tmp") rfl⟩

/-- Counterexample to claim C5 as stated: args matching is not
length-sensitive in general — the one-element spec whose single value is the
string "a,b" matches the two-element incoming args ["a", "b"], because both
sides have the same comma-joined string representation. -/
theorem args_not_length_sensitive :
    ((Interceptor.create (.lit "x") (some (.list ["a,b"])) none).matchCall
      "x" ["a", "b"] {}).1 = true ∧
    (["a,b"] : List String).length = 1 ∧
    (["a", "b"] : List String).length = 2 :=
  ⟨rfl, rfl, rfl⟩

/-- Claim C5 (amended): for a literal sequence args spec, `match` fails
unless the spec's comma-joined string representation equals that of the
incoming args — a comparison that is order- and value-sensitive (and
length-sensitive whenever the values contain no commas, though not in
general); the spec ["a", "b"] matches neither incoming ["b", "a"] nor
["a"]; when no args spec was supplied, every incoming args sequence is
accepted. -/
theorem args_criterion (I : Interceptor) (a : List String) :
    (∀ l, I.args = some (.list l) →
      (I.argsMatches a = true ↔ argsToString l = argsToString a)) ∧
    (I.args = none → I.argsMatches a = true) ∧
    ((Interceptor.create (.lit "x") (some (.list ["a", "b"])) none).matchCall
      "x" ["b", "a"] {}).1 = false ∧
    ((Interceptor.create (.lit "x") (some (.list ["a", "b"])) none).matchCall
      "x" ["a"] {}).1 = false := by
  refine ⟨?_, ?_, rfl, rfl⟩
  · intro l hl
    simp [Interceptor.argsMatches, hl]
  · intro h
    simp [Interceptor.argsMatches, h]

/-- Witness for C5 (amended) at a concrete literal args spec. -/
theorem args_criterion_witness :
    (Interceptor.create (.lit "x") (some (.list ["a", "b"])) none).argsMatches
      ["a", "b"] = true ↔
    argsToString ["a", "b"] = argsToString ["a", "b"] :=
  (args_criterion (Interceptor.create (.lit "x") (some (.list ["a", "b"])) none)
    ["a", "b"]).1 ["a", "b"] rfl

/-- Claim C6: when the options spec carries an env submap, a successful match
forces the incoming options to carry an env in which every key defined in
the spec's env has the identical value, while incoming env keys outside that
set are ignored: the spec env with FOO = "1" matches incoming env FOO = "1"
together with an unrelated BAR = "2", and fails when FOO is missing or bound
to a different value. -/
theorem env_keywise_matching :
    (∀ (m o : CallOptions) (e : List (String × String)), m.env = some e →
      compareOptions m o = true →
      ∃ ce, o.env = some ce ∧ ∀ p ∈ e, ce.lookup p.1 = some p.2) ∧
    ((Interceptor.create (.lit "x") none
        (some (.map { env := some [("FOO", "1")] }))).matchCall
      "x" [] { env := some [("FOO", "1"), ("BAR", "2")] }).1 = true ∧
    ((Interceptor.create (.lit "x") none
        (some (.map { env := some [("FOO", "1")] }))).matchCall
      "x" [] { env := some [("BAR", "2")] }).1 = false ∧
    ((Interceptor.create (.lit "x") none
        (some (.map { env := some [("FOO", "1")] }))).matchCall
      "x" [] { env := some [("FOO", "2")] }).1 = false := by
  refine ⟨?_, rfl, rfl, rfl⟩
  intro m o e he h
  rw [compareOptions, Bool.and_eq_true] at h
  have h2 := h.2
  rw [he] at h2
  cases hce : o.env with
  | none => rw [hce] at h2; simp at h2
  | some ce =>
    rw [hce] at h2
    rw [List.all_eq_true] at h2
    refine ⟨ce, rfl, fun p hp => ?_⟩
    have := h2 p hp
    rwa [beq_iff_eq] at this

/-- Witness for C6 at a concrete env spec and incoming env. -/
theorem env_keywise_matching_witness :
    (compareOptions { env := some [("FOO", "1")] }
      { env := some [("FOO", "1"), ("BAR", "2")] } = true) ∧
    (∃ ce, ({ env := some [("FOO", "1"), ("BAR", "2")] : CallOptions }).env
        = some ce ∧ ∀ p ∈ [("FOO", "1")], ce.lookup p.1 = some p.2) :=
  ⟨rfl, env_keywise_matching.1 { env := some [("FOO", "1")] }
    { env := some [("FOO", "1"), ("BAR", "2")] } [("FOO", "1")] rfl rfl⟩

end Spawk
